import Mathlib

/-
Verification of the query-execution façade (restq.py and its DB-API shim
dbapi.py) against its natural-language specification.

The development is a shallow embedding of the relevant source code:
  * the SQL statement classifier and read-only gate (restq._classify_sql,
    restq._enforce_read_only),
  * the pagination rewriter (restq._wrap_with_limit_offset),
  * the per-client token bucket (restq.TokenBucket),
  * the NDJSON streaming chunker (restq.stream_rows.row_generator),
  * the DB-API cursor (dbapi.Cursor.fetchone / fetchmany) and the
    server-side cursor store (restq._CursorState, _close_cursor_state,
    _sweep_cursors_task, cursor_next, cursor_close),
  * the one-shot query endpoint (restq.run_query).

Modelling conventions:
  * Python strings are lists of characters; str.upper is modelled
    per-character by Char.toUpper (faithful on ASCII, which is all the
    allow-lists compare against).
  * Python floats (token bucket) are modelled by rationals; wall-clock
    datetimes (cursor deadlines) are modelled by integer ticks.
  * Exceptions are modelled by Except; each HTTP error status is a
    constructor of HttpError.
  * The backend driver is an external collaborator: a cursor's pending
    result stream is a list whose elements are either rows or errors the
    backend raises when the row is pulled.
-/

/-! ### Python string helpers -/

/-- Python whitespace (the characters str.split and str.strip treat as
separators). -/
def pyIsSpace (c : Char) : Bool :=
  c == ' ' || c == '\t' || c == '\n' || c == '\r' || c == '\x0b' || c == '\x0c'

/-- Python str.lstrip with no argument: drop leading whitespace. -/
def pyLstrip (s : List Char) : List Char := s.dropWhile pyIsSpace

/-- Truthiness of Python str.strip(): true iff some character is
non-whitespace. -/
def pyStripTruthy (s : List Char) : Bool := s.any (fun c => !pyIsSpace c)

/-! ### Statement classifier (restq.py lines 222-232) -/

/-- Source: READ_ONLY_PREFIXES = ("SELECT", "WITH", "SHOW", "EXPLAIN",
"DESCRIBE"). -/
def READ_ONLY_PREFIXES : List (List Char) :=
  ["SELECT".data, "WITH".data, "SHOW".data, "EXPLAIN".data, "DESCRIBE".data]

/-- Source: def _classify_sql(sql): return
sql.lstrip().split(None, 1)[0].upper() if sql.strip() else "".
For a string with a non-whitespace character, lstrip().split(None, 1)[0]
is the leading run of non-whitespace characters of the lstripped string. -/
def _classify_sql (s : List Char) : List Char :=
  if pyStripTruthy s then
    ((pyLstrip s).takeWhile (fun c => !pyIsSpace c)).map Char.toUpper
  else []

/-- Source: _enforce_read_only raises HTTPException 403 unless the
classified head is in READ_ONLY_PREFIXES.  Modelled as the Boolean
"no exception raised". -/
def _enforce_read_only (s : List Char) : Bool :=
  decide (_classify_sql s ∈ READ_ONLY_PREFIXES)

/-- Spec-side rendition of the classification contract, written from the
specification words alone: trim leading whitespace, take the first
whitespace-delimited token, upper-case it.  Compared against the
source-side _classify_sql in the C4 theorem. -/
def spec_first_token_upper (s : List Char) : List Char :=
  ((s.dropWhile pyIsSpace).takeWhile (fun c => !pyIsSpace c)).map Char.toUpper

/-! ### Pagination rewriter (restq.py lines 234-243) -/

/-- Source: DEFAULT_LIMIT = int(os.getenv("DEFAULT_LIMIT", "1000")). -/
def DEFAULT_LIMIT : Nat := 1000

/-- Source: MAX_LIMIT = int(os.getenv("MAX_LIMIT", "10000")). -/
def MAX_LIMIT : Nat := 10000

/-- The inline tuple of pageable heads tested by _wrap_with_limit_offset:
("SELECT", "WITH", "EXPLAIN", "SHOW", "DESCRIBE"). -/
def _wrap_pageable_heads : List (List Char) :=
  ["SELECT".data, "WITH".data, "EXPLAIN".data, "SHOW".data, "DESCRIBE".data]

/-- Source: def _wrap_with_limit_offset(sql, limit, offset).
Returns the (possibly rewritten) SQL text and the map of reserved bound
parameters.  eff_offset models Python "offset or 0" (0 and None are both
falsy, so both give 0, which Option.getD 0 reproduces on naturals). -/
def _wrap_with_limit_offset (sql : List Char) (limit offset : Option Nat) :
    List Char × List (String × Nat) :=
  if limit = none ∧ offset = none then (sql, [])
  else if _classify_sql sql ∈ _wrap_pageable_heads then
    ("SELECT * FROM ( ".data ++ sql ++ " ) t LIMIT :_lim OFFSET :_off".data,
     [("_lim", min (limit.getD DEFAULT_LIMIT) MAX_LIMIT), ("_off", offset.getD 0)])
  else (sql, [])

/-! ### Lemmas about the classifier -/

theorem dropWhile_space_of_all_space (s : List Char)
    (h : ∀ c ∈ s, pyIsSpace c) : s.dropWhile pyIsSpace = [] := by
  rw [List.dropWhile_eq_nil_iff]
  exact h

theorem classify_eq_spec_token (s : List Char) :
    _classify_sql s = spec_first_token_upper s := by
  unfold _classify_sql spec_first_token_upper pyLstrip pyStripTruthy
  by_cases h : s.any (fun c => !pyIsSpace c)
  · rw [if_pos h]
  · rw [if_neg h]
    have hall : ∀ c ∈ s, pyIsSpace c := by
      intro c hc
      have := List.any_eq_false.mp (Bool.eq_false_iff.mpr h) c hc
      simpa using this
    rw [dropWhile_space_of_all_space s hall]
    rfl

/-- C4: classification trims leading whitespace, takes the first
whitespace-delimited token, upper-cases it, and the read-only gate accepts
exactly the tokens SELECT, WITH, SHOW, EXPLAIN, DESCRIBE; lower-case
spellings are accepted identically, and empty or whitespace-only input is
rejected. -/
theorem classify_read_only_c4 :
    (∀ s : List Char,
        _enforce_read_only s = true ↔ spec_first_token_upper s ∈ READ_ONLY_PREFIXES)
  ∧ _enforce_read_only "select 1".data = true
  ∧ _enforce_read_only "SELECT 1".data = true
  ∧ (∀ s : List Char, (∀ c ∈ s, pyIsSpace c) → _enforce_read_only s = false) := by
  refine ⟨fun s => ?_, by decide, by decide, fun s h => ?_⟩
  · rw [_enforce_read_only, classify_eq_spec_token]
    exact decide_eq_true_iff
  · have hfalse : pyStripTruthy s = false := by
      simp only [pyStripTruthy, List.any_eq_false]
      intro c hc
      simpa using h c hc
    have hnil : _classify_sql s = [] := by
      simp [_classify_sql, hfalse]
    rw [_enforce_read_only, hnil]
    decide

theorem classify_read_only_c4_witness : _enforce_read_only [' '] = false :=
  classify_read_only_c4.2.2.2 [' '] (by decide)

/-- C5: the rewriter returns the input unchanged with no bound parameters
when both limit and offset are unset, returns the input unchanged when the
statement is not pageable, and otherwise produces the wrapper
SELECT * FROM ( sql ) t LIMIT :_lim OFFSET :_off with _lim bound to
min(limit or DEFAULT_LIMIT, MAX_LIMIT) and _off bound to offset or 0. -/
theorem wrap_limit_offset_c5 :
    (∀ sql : List Char, _wrap_with_limit_offset sql none none = (sql, []))
  ∧ (∀ (sql : List Char) (L O : Option Nat),
        _classify_sql sql ∉ _wrap_pageable_heads →
        _wrap_with_limit_offset sql L O = (sql, []))
  ∧ (∀ (sql : List Char) (L O : Option Nat),
        (L ≠ none ∨ O ≠ none) → _classify_sql sql ∈ _wrap_pageable_heads →
        _wrap_with_limit_offset sql L O =
          ("SELECT * FROM ( ".data ++ sql ++ " ) t LIMIT :_lim OFFSET :_off".data,
           [("_lim", min (L.getD DEFAULT_LIMIT) MAX_LIMIT),
            ("_off", O.getD 0)])) := by
  refine ⟨fun sql => ?_, fun sql L O h => ?_, fun sql L O hLO hmem => ?_⟩
  · simp [_wrap_with_limit_offset]
  · by_cases hn : L = none ∧ O = none
    · rw [_wrap_with_limit_offset, if_pos hn]
    · rw [_wrap_with_limit_offset, if_neg hn, if_neg h]
  · have hn : ¬(L = none ∧ O = none) := by
      rcases hLO with h | h
      · exact fun hc => h hc.1
      · exact fun hc => h hc.2
    rw [_wrap_with_limit_offset, if_neg hn, if_pos hmem]

theorem wrap_limit_offset_c5_witness :
    _wrap_with_limit_offset "SELECT 1".data (some 20000) none =
      ("SELECT * FROM ( ".data ++ "SELECT 1".data
         ++ " ) t LIMIT :_lim OFFSET :_off".data,
       [("_lim", min ((some 20000).getD DEFAULT_LIMIT) MAX_LIMIT),
        ("_off", (none : Option Nat).getD 0)]) :=
  wrap_limit_offset_c5.2.2 "SELECT 1".data (some 20000) none
    (Or.inl (by decide)) (by decide)

/-! ### Token bucket (restq.py lines 133-148) -/

/-- Python min on rationals: min(a, b) returns a when a is less or equal. -/
def pyMin (a b : ℚ) : ℚ := if a ≤ b then a else b

/-- Python max on rationals: max(a, b) returns b when a is less or equal. -/
def pyMax (a b : ℚ) : ℚ := if a ≤ b then b else a

/-- Source: class TokenBucket, slots rate, burst, tokens, timestamp.
Floats are modelled by rationals; timestamp is the monotonic clock value
last stored by the bucket. -/
structure TokenBucket where
  rate : ℚ
  burst : ℚ
  tokens : ℚ
  timestamp : ℚ
deriving DecidableEq, Repr

/-- Source: TokenBucket.__init__(rate, burst): rate = max(rate, 0.001),
burst = max(burst, 1), tokens = float(burst), timestamp = monotonic().
Note tokens is set from the unclamped constructor argument burst, not
from the clamped self.burst.  The monotonic() reading is the explicit
argument now. -/
def TokenBucket.init (rate : ℚ) (burst : ℤ) (now : ℚ) : TokenBucket :=
  { rate := pyMax rate (1 / 1000)
    burst := pyMax (burst : ℚ) 1
    tokens := (burst : ℚ)
    timestamp := now }

/-- Source: TokenBucket.consume(n): elapsed = now - timestamp;
timestamp = now; tokens = min(burst, tokens + elapsed * rate);
if tokens >= n: tokens -= n; return True else return False. -/
def TokenBucket.consume (b : TokenBucket) (now : ℚ) (n : ℚ) : Bool × TokenBucket :=
  let elapsed := now - b.timestamp
  let tokens1 := pyMin b.burst (b.tokens + elapsed * b.rate)
  if n ≤ tokens1 then (true, { b with timestamp := now, tokens := tokens1 - n })
  else (false, { b with timestamp := now, tokens := tokens1 })

/-- A sequence of consume(1) calls at the given clock readings, returning
the list of admit decisions and the final bucket. -/
def consumeRun (b : TokenBucket) : List ℚ → List Bool × TokenBucket
  | [] => ([], b)
  | t :: ts =>
    let r := b.consume t 1
    let rest := consumeRun r.2 ts
    (r.1 :: rest.1, rest.2)

/-- Bucket state well-formedness established by init and preserved by
consume: clamped rate and capacity, token balance within bounds. -/
def TokenBucket.GoodState (b : TokenBucket) : Prop :=
  0 ≤ b.rate ∧ 1 ≤ b.burst ∧ 0 ≤ b.tokens ∧ b.tokens ≤ b.burst

theorem consume_good_step (b : TokenBucket) (now : ℚ)
    (hg : b.GoodState) (ht : b.timestamp ≤ now) :
    (b.consume now 1).2.GoodState ∧ (b.consume now 1).2.timestamp = now := by
  obtain ⟨hr, hb, h0, hcap⟩ := hg
  have htok : 0 ≤ b.tokens + (now - b.timestamp) * b.rate := by
    have : 0 ≤ (now - b.timestamp) * b.rate := mul_nonneg (by linarith) hr
    linarith
  have h1 : 0 ≤ pyMin b.burst (b.tokens + (now - b.timestamp) * b.rate) := by
    rw [pyMin]
    split_ifs with h
    · linarith
    · exact htok
  have h2 : pyMin b.burst (b.tokens + (now - b.timestamp) * b.rate) ≤ b.burst := by
    rw [pyMin]
    split_ifs with h
    · exact le_refl _
    · linarith
  simp only [TokenBucket.consume]
  split_ifs with hc
  · refine ⟨⟨hr, hb, ?_, ?_⟩, rfl⟩
    · show 0 ≤ pyMin b.burst (b.tokens + (now - b.timestamp) * b.rate) - 1
      linarith
    · show pyMin b.burst (b.tokens + (now - b.timestamp) * b.rate) - 1 ≤ b.burst
      linarith
  · refine ⟨⟨hr, hb, ?_, ?_⟩, rfl⟩
    · show 0 ≤ pyMin b.burst (b.tokens + (now - b.timestamp) * b.rate)
      exact h1
    · show pyMin b.burst (b.tokens + (now - b.timestamp) * b.rate) ≤ b.burst
      exact h2

theorem consumeRun_good (b : TokenBucket) (ts : List ℚ)
    (hg : b.GoodState) (hchain : List.Chain (· ≤ ·) b.timestamp ts) :
    (consumeRun b ts).2.GoodState := by
  induction ts generalizing b with
  | nil => exact hg
  | cons t ts ih =>
    cases hchain with
    | cons hle hchain2 =>
      have hstep := consume_good_step b t hg hle
      simp only [consumeRun]
      exact ih (b.consume t 1).2 hstep.1 (by rw [hstep.2]; exact hchain2)

/-- C6: a bucket of capacity 10 and rate 1 starting full admits ten
immediate consume calls and denies the eleventh; after a further elapsed
time of at least one second (and below the two seconds at which a second
token would have accrued) exactly one more consume is admitted; and in
general each call refills to min(capacity, tokens + elapsed * rate), then
admits and subtracts 1 exactly when the refilled balance is at least 1. -/
theorem token_bucket_scenario_c6 :
    (consumeRun (TokenBucket.init 1 10 0) (List.replicate 11 0)).1
      = List.replicate 10 true ++ [false]
  ∧ (∀ e : ℚ, 1 ≤ e → e < 2 →
      (((consumeRun (TokenBucket.init 1 10 0) (List.replicate 11 0)).2.consume e 1).1
          = true
        ∧ ((((consumeRun (TokenBucket.init 1 10 0)
              (List.replicate 11 0)).2.consume e 1).2).consume e 1).1 = false))
  ∧ (∀ (b : TokenBucket) (now : ℚ),
      ((b.consume now 1).1 = true ↔
          1 ≤ pyMin b.burst (b.tokens + (now - b.timestamp) * b.rate))
      ∧ (b.consume now 1).2.tokens =
          (if 1 ≤ pyMin b.burst (b.tokens + (now - b.timestamp) * b.rate)
           then pyMin b.burst (b.tokens + (now - b.timestamp) * b.rate) - 1
           else pyMin b.burst (b.tokens + (now - b.timestamp) * b.rate))
      ∧ (b.consume now 1).2.timestamp = now) := by
  have hb11 : (consumeRun (TokenBucket.init 1 10 0) (List.replicate 11 0)).2
      = ⟨1, 10, 0, 0⟩ := by
    norm_num [TokenBucket.init, pyMax, consumeRun, TokenBucket.consume, pyMin,
      List.replicate]
  refine ⟨?_, fun e h1 h2 => ?_, fun b now => ?_⟩
  · norm_num [TokenBucket.init, pyMax, consumeRun, TokenBucket.consume, pyMin,
      List.replicate]
  · rw [hb11]
    have he : (0:ℚ) + (e - 0) * 1 = e := by ring
    have hc1 : TokenBucket.consume ⟨1, 10, 0, 0⟩ e 1 = (true, ⟨1, 10, e - 1, e⟩) := by
      simp only [TokenBucket.consume, he]
      rw [pyMin, if_neg (show ¬ (10:ℚ) ≤ e by intro h; linarith)]
      rw [if_pos h1]
    refine ⟨by rw [hc1], ?_⟩
    rw [hc1]
    have he2 : e - 1 + (e - e) * 1 = e - 1 := by ring
    simp only [TokenBucket.consume, he2]
    rw [pyMin, if_neg (show ¬ (10:ℚ) ≤ e - 1 by intro h; linarith)]
    rw [if_neg (show ¬ (1:ℚ) ≤ e - 1 by intro h; linarith)]
  · simp only [TokenBucket.consume]
    split_ifs with hc
    · exact ⟨by simp [hc], rfl, rfl⟩
    · exact ⟨by simp [hc], rfl, rfl⟩

theorem token_bucket_scenario_c6_witness :
    ((consumeRun (TokenBucket.init 1 10 0) (List.replicate 11 0)).2.consume 1 1).1
      = true :=
  (token_bucket_scenario_c6.2.1 1 (by norm_num) (by norm_num)).1

/-- C7 counterexample: the claimed 0 ≤ tokens bound is already false at
construction for a negative burst argument — init sets tokens from the
unclamped argument (tokens = float(burst)), so a bucket built with
burst = -5 starts with tokens = -5 while its clamped capacity is 1. -/
theorem token_bucket_invariant_c7_counterexample :
    (TokenBucket.init 1 (-5) 0).tokens = -5
  ∧ (TokenBucket.init 1 (-5) 0).burst = 1
  ∧ ¬ 0 ≤ (TokenBucket.init 1 (-5) 0).tokens := by
  refine ⟨?_, ?_, ?_⟩ <;> norm_num [TokenBucket.init, pyMax]

/-- C7 (amended): for a bucket built by init from a non-negative burst
argument (rate and capacity clamped as in the source; only a negative
configured burst escapes the clamp, since tokens is set from the
unclamped argument) and any sequence of consume calls at non-decreasing
clock readings, the token balance stays within 0 and the capacity, at
construction and after the whole run (the run over any prefix is itself
an instance of the statement). -/
theorem token_bucket_invariant_c7 (rate : ℚ) (burst : ℤ) (t0 : ℚ) (ts : List ℚ)
    (hburst : 0 ≤ burst) (hchain : List.Chain (· ≤ ·) t0 ts) :
    (0 ≤ (TokenBucket.init rate burst t0).tokens
      ∧ (TokenBucket.init rate burst t0).tokens
          ≤ (TokenBucket.init rate burst t0).burst)
  ∧ (0 ≤ (consumeRun (TokenBucket.init rate burst t0) ts).2.tokens
      ∧ (consumeRun (TokenBucket.init rate burst t0) ts).2.tokens
          ≤ (consumeRun (TokenBucket.init rate burst t0) ts).2.burst) := by
  have hg : (TokenBucket.init rate burst t0).GoodState := by
    refine ⟨?_, ?_, ?_, ?_⟩
    · show 0 ≤ pyMax rate (1 / 1000)
      rw [pyMax]
      split_ifs with h
      · norm_num
      · linarith [not_le.mp h]
    · show 1 ≤ pyMax (burst : ℚ) 1
      rw [pyMax]
      split_ifs with h
      · norm_num
      · linarith [not_le.mp h]
    · show 0 ≤ (burst : ℚ)
      exact_mod_cast hburst
    · show (burst : ℚ) ≤ pyMax (burst : ℚ) 1
      rw [pyMax]
      split_ifs with h
      · exact h
      · exact le_refl _
  have hrun := consumeRun_good (TokenBucket.init rate burst t0) ts hg hchain
  exact ⟨⟨hg.2.2.1, hg.2.2.2⟩, hrun.2.2.1, hrun.2.2.2⟩

theorem token_bucket_invariant_c7_witness :
    (0 ≤ (TokenBucket.init 1 10 0).tokens
      ∧ (TokenBucket.init 1 10 0).tokens ≤ (TokenBucket.init 1 10 0).burst)
  ∧ (0 ≤ (consumeRun (TokenBucket.init 1 10 0) []).2.tokens
      ∧ (consumeRun (TokenBucket.init 1 10 0) []).2.tokens
          ≤ (consumeRun (TokenBucket.init 1 10 0) []).2.burst) :=
  token_bucket_invariant_c7 1 10 0 [] (by norm_num) List.Chain.nil

/-! ### NDJSON streaming (restq.py lines 466-494) -/

/-- Source: STREAM_CHUNK_ROWS = int(os.getenv("STREAM_CHUNK_ROWS", "1000")). -/
def STREAM_CHUNK_ROWS : Nat := 1000

/-- The inline tuple ("INSERT", "UPDATE", "DELETE", "MERGE") tested by
run_query and row_generator for the rowcount-only branch. -/
def mutatingHeads : List (List Char) :=
  ["INSERT".data, "UPDATE".data, "DELETE".data, "MERGE".data]

/-- The chunk-accumulation loop of row_generator: append each row to the
current chunk and emit the chunk as soon as its length reaches N; after
the loop, emit the remaining partial chunk when non-empty. -/
def streamChunks {α : Type} (N : Nat) (chunk : List α) : List α → List (List α)
  | [] => if chunk.isEmpty then [] else [chunk]
  | r :: rs =>
    let c := chunk ++ [r]
    if N ≤ c.length then c :: streamChunks N [] rs else streamChunks N c rs

/-- One NDJSON frame produced by row_generator: the header line carrying
the column names, a row-batch line, or the single rowcount line emitted
for a mutating statement. -/
inductive StreamFrame (α : Type) where
  | header (columns : List String)
  | batch (rows : List α)
  | rowcountOnly (rowcount : Int)
deriving DecidableEq

/-- Source: stream_rows.row_generator, with the backend interaction
abstracted to the resulting column list and row list: a mutating head
yields the single rowcount frame; otherwise a header frame followed by
the chunked row frames. -/
def row_generator {α : Type} (N : Nat) (sql : List Char) (cols : List String)
    (rows : List α) (rowcount : Int) : List (StreamFrame α) :=
  if _classify_sql sql ∈ mutatingHeads then [StreamFrame.rowcountOnly rowcount]
  else StreamFrame.header cols :: (streamChunks N [] rows).map StreamFrame.batch

theorem streamChunks_join {α : Type} (N : Nat) (rs : List α) :
    ∀ chunk : List α, (streamChunks N chunk rs).flatten = chunk ++ rs := by
  induction rs with
  | nil =>
    intro chunk
    rw [streamChunks]
    cases chunk with
    | nil => simp
    | cons a l => simp
  | cons r rs ih =>
    intro chunk
    rw [streamChunks]
    split_ifs with h
    · simp [ih]
    · simp [ih]

theorem streamChunks_length_le {α : Type} (N : Nat) (rs : List α) :
    ∀ chunk : List α, chunk.length < N →
      ∀ c ∈ streamChunks N chunk rs, c.length ≤ N := by
  induction rs with
  | nil =>
    intro chunk hlt c hc
    rw [streamChunks] at hc
    split_ifs at hc with h
    · simp at hc
    · simp at hc
      subst hc
      exact Nat.le_of_lt hlt
  | cons r rs ih =>
    intro chunk hlt c hc
    rw [streamChunks] at hc
    split_ifs at hc with h
    · rcases List.mem_cons.mp hc with hc1 | hc2
      · subst hc1
        simpa using hlt
      · exact ih [] (Nat.lt_of_le_of_lt (Nat.zero_le chunk.length) hlt) c hc2
    · refine ih (chunk ++ [r]) ?_ c hc
      simp only [List.length_append, List.length_singleton] at h ⊢
      omega

set_option maxRecDepth 100000

/-- C8: for a row-producing statement the frame sequence is a header frame
with the column names followed by row frames of at most N rows whose
concatenation is the full result in order (the final partial frame
included), and 2500 input rows with chunk size 1000 produce row frames of
sizes 1000, 1000, 500. -/
theorem stream_chunking_c8 {α : Type} (N : Nat) (sql : List Char)
    (cols : List String) (rows : List α) (rc : Int)
    (hN : 0 < N) (hhead : _classify_sql sql ∉ mutatingHeads) :
    row_generator N sql cols rows rc
      = StreamFrame.header cols :: (streamChunks N [] rows).map StreamFrame.batch
  ∧ (∀ c ∈ streamChunks N ([] : List α) rows, c.length ≤ N)
  ∧ (streamChunks N ([] : List α) rows).flatten = rows
  ∧ (streamChunks STREAM_CHUNK_ROWS [] (List.replicate 2500 (0 : Nat))).map
      List.length = [1000, 1000, 500] := by
  refine ⟨?_, ?_, ?_, ?_⟩
  · rw [row_generator, if_neg hhead]
  · exact streamChunks_length_le N rows [] (by simpa using hN)
  · simpa using streamChunks_join N rows []
  · decide

theorem stream_chunking_c8_witness :
    row_generator 2 "SELECT 1".data ["v"] [10, 20, 30] 0
      = StreamFrame.header ["v"]
          :: (streamChunks 2 [] [10, 20, 30]).map StreamFrame.batch
  ∧ (∀ c ∈ streamChunks 2 ([] : List Nat) [10, 20, 30], c.length ≤ 2)
  ∧ (streamChunks 2 ([] : List Nat) [10, 20, 30]).flatten = [10, 20, 30]
  ∧ (streamChunks STREAM_CHUNK_ROWS [] (List.replicate 2500 (0 : Nat))).map
      List.length = [1000, 1000, 500] :=
  stream_chunking_c8 2 "SELECT 1".data ["v"] [10, 20, 30] 0
    (by decide) (by decide)

/-! ### HTTP errors -/

/-- The HTTP error statuses raised by the façade: 404 ResourceNotFound,
409 ResourceNotReady, 400 BackendExecutionError / validation, 403
PolicyViolation. -/
inductive HttpError where
  | notFound (detail : String)
  | conflict (detail : String)
  | badRequest (detail : String)
  | forbidden (detail : String)
deriving DecidableEq, Repr

/-! ### DB-API cursor (dbapi.py lines 51-168) -/

/-- One pending item of a backend result stream: the next row, or the
error the backend raises when that item is pulled. -/
inductive FetchItem (α : Type) where
  | row (r : α)
  | fail (e : String)
deriving DecidableEq, Repr

/-- Source: dbapi.Cursor, restricted to the fields the stored server-side
cursors exercise.  description is the column metadata captured by
execute() (kept across exhaustion); live is the joint state of _result
and _iterator: some pending means both are set and pending is the stream
of items the backend will deliver; none means both were reset to None. -/
structure Cursor (α : Type) where
  description : Option (List String)
  live : Option (List (FetchItem α))
deriving DecidableEq

/-- Source: dbapi.Cursor.fetchone.  With no live iterator and no result,
raises Error("fetchone() called before execute()"); on StopIteration it
closes the backend result, resets live state and returns None; otherwise
it returns the next row (or propagates the error the backend raised). -/
def Cursor.fetchone {α : Type} (c : Cursor α) :
    Except String (Option α × Cursor α) :=
  match c.live with
  | none => Except.error "fetchone() called before execute()"
  | some [] => Except.ok (none, { c with live := none })
  | some (FetchItem.fail e :: _) => Except.error e
  | some (FetchItem.row r :: rest) => Except.ok (some r, { c with live := some rest })

/-- Source: dbapi.Cursor.fetchmany(size): call fetchone up to size times,
stopping at the first None; an exception from fetchone propagates and the
rows collected so far are discarded. -/
def Cursor.fetchmany {α : Type} (c : Cursor α) :
    Nat → Except String (List α × Cursor α)
  | 0 => Except.ok ([], c)
  | n + 1 =>
    match c.fetchone with
    | Except.error e => Except.error e
    | Except.ok (none, c1) => Except.ok ([], c1)
    | Except.ok (some r, c1) =>
      match c1.fetchmany n with
      | Except.error e => Except.error e
      | Except.ok (rs, c2) => Except.ok (r :: rs, c2)

/-! ### Cursor store (restq.py lines 271-322 and 546-600) -/

/-- Source: CURSOR_TTL_SECONDS = int(os.getenv("CURSOR_TTL_SECONDS",
"900")). -/
def CURSOR_TTL_SECONDS : ℤ := 900

/-- Source: CURSOR_BATCH_ROWS = int(os.getenv("CURSOR_BATCH_ROWS",
"1000")). -/
def CURSOR_BATCH_ROWS : Nat := 1000

/-- Source: restq._CursorState.  dbc is whether the owned raw connection
is still held (set to None by _close_cursor_state); cur is the owned
DB-API cursor; datetimes are integer ticks. -/
structure _CursorState (α : Type) where
  dbc : Bool
  cur : Option (Cursor α)
  cols : List String
  deadline : ℤ
  timeout : ℚ
  buffer : Nat
  created : ℤ
  last_access : ℤ
deriving DecidableEq

/-- Source: _CursorState.touch(ttl_sec): refresh last_access and push the
deadline to now + ttl. -/
def _CursorState.touch {α : Type} (st : _CursorState α) (now ttl_sec : ℤ) :
    _CursorState α :=
  { st with last_access := now, deadline := now + ttl_sec }

/-- Source: _close_cursor_state(state): close state.cur and state.dbc if
still present (each close swallowing its own exceptions), then set both
to None.  The pair of Booleans records which backend close calls were
actually made: (cur was closed, dbc was closed). -/
def _close_cursor_state {α : Type} (st : _CursorState α) :
    _CursorState α × Bool × Bool :=
  ({ st with cur := none, dbc := false }, st.cur.isSome, st.dbc)

/-- Python dict lookup on an association list (first match). -/
def pyGet {β : Type} : List (String × β) → String → Option β
  | [], _ => none
  | (k, v) :: rest, id => if k = id then some v else pyGet rest id

/-- Python dict.pop on an association list (remove first match). -/
def pyPop {β : Type} : List (String × β) → String → List (String × β)
  | [], _ => []
  | (k, v) :: rest, id => if k = id then rest else (k, v) :: pyPop rest id

/-- Python dict item assignment on an association list (replace in place,
else append). -/
def pySet {β : Type} : List (String × β) → String → β → List (String × β)
  | [], id, v => [(id, v)]
  | (k, w) :: rest, id, v =>
    if k = id then (id, v) :: rest else (k, w) :: pySet rest id v

/-- Well-formedness of the association-list model of a Python dict: keys
are pairwise distinct. -/
def keysNodup {β : Type} (m : List (String × β)) : Prop :=
  (m.map Prod.fst).Nodup

/-- Source: restq.CursorNextResponse (expires_at as the underlying
datetime tick rather than its ISO rendering). -/
structure CursorNextResponse (α : Type) where
  cursor_id : String
  rows : List α
  columns : Option (List String)
  exhausted : Bool
  expires_at : ℤ
deriving DecidableEq

/-- Source: restq.CursorCloseResponse. -/
structure CursorCloseResponse where
  cursor_id : String
  closed : Bool
deriving DecidableEq

/-- Python "rows or CURSOR_BATCH_ROWS" of cursor_next: None and 0 are
falsy, so both yield the default batch size. -/
def _next_batch_size (rows : Option Nat) : Nat :=
  match rows with
  | none => CURSOR_BATCH_ROWS
  | some n => if n = 0 then CURSOR_BATCH_ROWS else n

/-- Source: restq.cursor_next(cursor_id, rows, include_columns).  Result,
new cursor map, and the list of release records (cursor id paired with
the (cur closed, dbc closed) flags of each _close_cursor_state call
performed). -/
def cursor_next {α : Type} (m : List (String × _CursorState α))
    (cursor_id : String) (rows : Option Nat) (include_columns : Bool)
    (now : ℤ) :
    Except HttpError (CursorNextResponse α)
      × List (String × _CursorState α) × List (String × Bool × Bool) :=
  let batch_size := _next_batch_size rows
  match pyGet m cursor_id with
  | none => (Except.error (HttpError.notFound "Cursor not found or expired"), m, [])
  | some st =>
    match st.cur with
    | none =>
      (Except.error
          (HttpError.conflict "Cursor not ready: execute() did not complete"),
       pyPop m cursor_id, [(cursor_id, (_close_cursor_state st).2)])
    | some cur =>
      match cur.description with
      | none =>
        (Except.error
            (HttpError.conflict "Cursor not ready: execute() did not complete"),
         pyPop m cursor_id, [(cursor_id, (_close_cursor_state st).2)])
      | some _ =>
        match cur.fetchmany batch_size with
        | Except.error e =>
          (Except.error (HttpError.badRequest e),
           pyPop m cursor_id, [(cursor_id, (_close_cursor_state st).2)])
        | Except.ok (data, cur2) =>
          if data.isEmpty then
            (Except.ok
                { cursor_id := cursor_id, rows := [],
                  columns := if include_columns then some st.cols else none,
                  exhausted := true, expires_at := now },
             pyPop m cursor_id,
             [(cursor_id, (_close_cursor_state { st with cur := some cur2 }).2)])
          else
            (Except.ok
                { cursor_id := cursor_id, rows := data,
                  columns := if include_columns then some st.cols else none,
                  exhausted := false,
                  expires_at :=
                    (({ st with cur := some cur2 }).touch now
                        CURSOR_TTL_SECONDS).deadline },
             pySet m cursor_id
               (({ st with cur := some cur2 }).touch now CURSOR_TTL_SECONDS),
             [])

/-- Source: restq.cursor_close(cursor_id): pop the entry; absent id gives
closed=false with no error; a live entry is released and closed=true. -/
def cursor_close {α : Type} (m : List (String × _CursorState α))
    (cursor_id : String) :
    CursorCloseResponse
      × List (String × _CursorState α) × List (String × Bool × Bool) :=
  match pyGet m cursor_id with
  | none => ({ cursor_id := cursor_id, closed := false }, m, [])
  | some st =>
    ({ cursor_id := cursor_id, closed := true },
     pyPop m cursor_id, [(cursor_id, (_close_cursor_state st).2)])

/-- Source: one pass of restq._sweep_cursors_task: under the lock remove
every entry whose deadline has passed, then release each removed entry
outside the lock. -/
def _sweep_cursors {α : Type} (m : List (String × _CursorState α)) (now : ℤ) :
    List (String × _CursorState α) × List (String × Bool × Bool) :=
  (m.filter (fun p => !decide (p.2.deadline ≤ now)),
   (m.filter (fun p => decide (p.2.deadline ≤ now))).map
     (fun p => (p.1, (_close_cursor_state p.2).2)))

/-- One store operation raced against the others: a next call, an explicit
close, or a background sweep pass. -/
inductive StoreOp where
  | next (cursor_id : String) (rows : Option Nat) (include_columns : Bool)
      (now : ℤ)
  | close (cursor_id : String)
  | sweep (now : ℤ)

/-- Effect of one store operation on the cursor map, with its release
records. -/
def applyOp {α : Type} (m : List (String × _CursorState α)) :
    StoreOp → List (String × _CursorState α) × List (String × Bool × Bool)
  | StoreOp.next id r ic now => (cursor_next m id r ic now).2
  | StoreOp.close id => (cursor_close m id).2
  | StoreOp.sweep now => _sweep_cursors m now

/-- Run a sequence of store operations, accumulating all release
records. -/
def runOps {α : Type} (m : List (String × _CursorState α)) :
    List StoreOp → List (String × _CursorState α) × List (String × Bool × Bool)
  | [] => (m, [])
  | op :: ops =>
    let s := applyOp m op
    let rest := runOps s.1 ops
    (rest.1, s.2 ++ rest.2)

/-- Number of release records for a given cursor id whose flags satisfy f
(f = cursor-close flag or connection-close flag). -/
def relCount (f : Bool × Bool → Bool) (id : String) :
    List (String × Bool × Bool) → Nat
  | [] => 0
  | (k, p) :: rest => (if k = id ∧ f p then 1 else 0) + relCount f id rest

instance {ε σ : Type} [DecidableEq ε] [DecidableEq σ] : DecidableEq (Except ε σ) :=
  fun a b =>
    match a, b with
    | Except.error e1, Except.error e2 =>
      if h : e1 = e2 then isTrue (by rw [h])
      else isFalse (fun hc => by cases hc; exact h rfl)
    | Except.error _, Except.ok _ => isFalse (fun hc => by cases hc)
    | Except.ok _, Except.error _ => isFalse (fun hc => by cases hc)
    | Except.ok v1, Except.ok v2 =>
      if h : v1 = v2 then isTrue (by rw [h])
      else isFalse (fun hc => by cases hc; exact h rfl)

/-! ### Association-list lemmas -/

theorem pyGet_eq_none_iff {β : Type} (m : List (String × β)) (id : String) :
    pyGet m id = none ↔ id ∉ m.map Prod.fst := by
  induction m with
  | nil => simp [pyGet]
  | cons p rest ih =>
    obtain ⟨k, v⟩ := p
    simp only [pyGet]
    by_cases h : k = id
    · subst h
      simp
    · rw [if_neg h]
      simp only [List.map_cons, List.mem_cons]
      rw [ih]
      constructor
      · intro hn hor
        rcases hor with h1 | h2
        · exact h h1.symm
        · exact hn h2
      · intro hn h2
        exact hn (Or.inr h2)

theorem pyGet_mem {β : Type} (m : List (String × β)) (id : String) (v : β)
    (h : pyGet m id = some v) : (id, v) ∈ m := by
  induction m with
  | nil => simp [pyGet] at h
  | cons p rest ih =>
    obtain ⟨k, w⟩ := p
    simp only [pyGet] at h
    by_cases hk : k = id
    · subst hk
      rw [if_pos rfl] at h
      cases h
      exact List.mem_cons_self _ _
    · rw [if_neg hk] at h
      exact List.mem_cons_of_mem _ (ih h)

theorem pyGet_pyPop_self {β : Type} (m : List (String × β)) (id : String)
    (hnd : keysNodup m) : pyGet (pyPop m id) id = none := by
  induction m with
  | nil => simp [pyPop, pyGet]
  | cons p rest ih =>
    obtain ⟨k, v⟩ := p
    obtain ⟨hk, hrest⟩ := List.nodup_cons.mp hnd
    simp only [pyPop]
    by_cases h : k = id
    · rw [if_pos h]
      subst h
      exact (pyGet_eq_none_iff rest k).mpr hk
    · rw [if_neg h]
      simp only [pyGet]
      rw [if_neg h]
      exact ih hrest

theorem pyGet_pyPop_ne {β : Type} (m : List (String × β)) (k id : String)
    (h : k ≠ id) : pyGet (pyPop m k) id = pyGet m id := by
  induction m with
  | nil => simp [pyPop]
  | cons p rest ih =>
    obtain ⟨k1, v⟩ := p
    simp only [pyPop]
    by_cases h1 : k1 = k
    · rw [if_pos h1]
      simp only [pyGet]
      rw [if_neg (h1 ▸ h)]
    · rw [if_neg h1]
      simp only [pyGet]
      by_cases h2 : k1 = id
      · rw [if_pos h2, if_pos h2]
      · rw [if_neg h2, if_neg h2]
        exact ih

theorem pyGet_pySet_self {β : Type} (m : List (String × β)) (k : String)
    (v : β) : pyGet (pySet m k v) k = some v := by
  induction m with
  | nil => simp [pySet, pyGet]
  | cons p rest ih =>
    obtain ⟨k1, w⟩ := p
    simp only [pySet]
    by_cases h : k1 = k
    · rw [if_pos h]
      simp [pyGet]
    · rw [if_neg h]
      simp only [pyGet]
      rw [if_neg h]
      exact ih

theorem pyGet_pySet_ne {β : Type} (m : List (String × β)) (k id : String)
    (v : β) (h : k ≠ id) : pyGet (pySet m k v) id = pyGet m id := by
  induction m with
  | nil => simp [pySet, pyGet, h]
  | cons p rest ih =>
    obtain ⟨k1, w⟩ := p
    simp only [pySet]
    by_cases h1 : k1 = k
    · rw [if_pos h1]
      simp only [pyGet]
      rw [if_neg h, if_neg (h1 ▸ h)]
    · rw [if_neg h1]
      simp only [pyGet]
      by_cases h2 : k1 = id
      · rw [if_pos h2, if_pos h2]
      · rw [if_neg h2, if_neg h2]
        exact ih

theorem pyPop_keys_sublist {β : Type} (m : List (String × β)) (k : String) :
    List.Sublist ((pyPop m k).map Prod.fst) (m.map Prod.fst) := by
  induction m with
  | nil => simp [pyPop]
  | cons p rest ih =>
    obtain ⟨k1, v⟩ := p
    simp only [pyPop]
    by_cases h : k1 = k
    · rw [if_pos h]
      exact (List.sublist_cons_self _ _)
    · rw [if_neg h]
      simpa using ih.cons₂ k1

theorem keysNodup_pyPop {β : Type} (m : List (String × β)) (k : String)
    (hnd : keysNodup m) : keysNodup (pyPop m k) :=
  List.Nodup.sublist (pyPop_keys_sublist m k) hnd

theorem pySet_keys_mem {β : Type} (m : List (String × β)) (k : String) (v : β)
    (x : String) (h : x ∈ (pySet m k v).map Prod.fst) :
    x ∈ m.map Prod.fst ∨ x = k := by
  induction m with
  | nil => simpa [pySet] using h
  | cons p rest ih =>
    obtain ⟨k1, w⟩ := p
    simp only [pySet] at h
    by_cases h1 : k1 = k
    · rw [if_pos h1] at h
      subst h1
      rw [List.map_cons] at h
      rcases List.mem_cons.mp h with h2 | h3
      · exact Or.inr h2
      · exact Or.inl (by rw [List.map_cons]; exact List.mem_cons.mpr (Or.inr h3))
    · rw [if_neg h1] at h
      simp only [List.map_cons, List.mem_cons] at h
      rcases h with h2 | h3
      · exact Or.inl (by rw [List.map_cons]; exact List.mem_cons.mpr (Or.inl h2))
      · rcases ih h3 with h4 | h5
        · exact Or.inl (List.mem_cons_of_mem _ h4)
        · exact Or.inr h5

theorem keysNodup_pySet {β : Type} (m : List (String × β)) (k : String)
    (v : β) (hnd : keysNodup m) : keysNodup (pySet m k v) := by
  induction m with
  | nil => simp [keysNodup, pySet]
  | cons p rest ih =>
    obtain ⟨k1, w⟩ := p
    obtain ⟨hk1, hrest⟩ := List.nodup_cons.mp hnd
    simp only [pySet]
    by_cases h : k1 = k
    · rw [if_pos h]
      subst h
      exact List.nodup_cons.mpr ⟨hk1, hrest⟩
    · rw [if_neg h]
      refine List.nodup_cons.mpr ⟨?_, ih hrest⟩
      intro hmem
      rcases pySet_keys_mem rest k v k1 hmem with h4 | h5
      · exact hk1 h4
      · exact h h5

theorem keysNodup_filter {β : Type} (m : List (String × β))
    (q : String × β → Bool) (hnd : keysNodup m) : keysNodup (m.filter q) :=
  List.Nodup.sublist (List.Sublist.map Prod.fst (List.filter_sublist m)) hnd

theorem keys_filter_subset {β : Type} (m : List (String × β))
    (q : String × β → Bool) (x : String)
    (h : x ∈ (m.filter q).map Prod.fst) : x ∈ m.map Prod.fst := by
  obtain ⟨p, hp, hfst⟩ := List.mem_map.mp h
  exact List.mem_map.mpr ⟨p, List.mem_of_mem_filter hp, hfst⟩

theorem pyGet_filter_none_of_mem_filter {β : Type} (m : List (String × β))
    (q : String × β → Bool) (id : String) (hnd : keysNodup m)
    (h : id ∈ (m.filter q).map Prod.fst) :
    pyGet (m.filter (fun p => !q p)) id = none := by
  induction m with
  | nil => simp at h
  | cons p rest ih =>
    obtain ⟨k, v⟩ := p
    obtain ⟨hk, hrest⟩ := List.nodup_cons.mp hnd
    by_cases hq : q (k, v)
    · rw [List.filter_cons_of_pos hq] at h
      rw [List.filter_cons_of_neg (by simp [hq])]
      by_cases hid : k = id
      · subst hid
        refine (pyGet_eq_none_iff _ _).mpr ?_
        intro hmem
        exact hk (keys_filter_subset rest _ k hmem)
      · simp only [List.map_cons, List.mem_cons] at h
        rcases h with h1 | h2
        · exact absurd h1.symm hid
        · exact ih hrest h2
    · rw [List.filter_cons_of_neg hq] at h
      rw [List.filter_cons_of_pos (by simp [hq])]
      by_cases hid : k = id
      · subst hid
        exact absurd (keys_filter_subset rest q k h) hk
      · simp only [pyGet]
        rw [if_neg hid]
        exact ih hrest h

/-! ### Release-count lemmas -/

theorem relCount_append (f : Bool × Bool → Bool) (id : String)
    (a b : List (String × Bool × Bool)) :
    relCount f id (a ++ b) = relCount f id a + relCount f id b := by
  induction a with
  | nil => simp [relCount]
  | cons p rest ih =>
    obtain ⟨k, q⟩ := p
    simp [relCount, ih, Nat.add_assoc]

theorem relCount_eq_zero (f : Bool × Bool → Bool) (id : String)
    (rel : List (String × Bool × Bool)) (h : id ∉ rel.map Prod.fst) :
    relCount f id rel = 0 := by
  induction rel with
  | nil => rfl
  | cons p rest ih =>
    obtain ⟨k, q⟩ := p
    simp only [List.map_cons, List.mem_cons] at h
    push_neg at h
    simp only [relCount]
    rw [if_neg (fun hc => h.1 hc.1.symm), ih h.2]

theorem relCount_pos_mem (f : Bool × Bool → Bool) (id : String)
    (rel : List (String × Bool × Bool)) (h : 1 ≤ relCount f id rel) :
    id ∈ rel.map Prod.fst := by
  by_contra hmem
  rw [relCount_eq_zero f id rel hmem] at h
  exact absurd h (by norm_num)

theorem relCount_le_one_of_nodup (f : Bool × Bool → Bool) (id : String)
    (rel : List (String × Bool × Bool)) (h : (rel.map Prod.fst).Nodup) :
    relCount f id rel ≤ 1 := by
  induction rel with
  | nil => simp [relCount]
  | cons p rest ih =>
    obtain ⟨k, q⟩ := p
    obtain ⟨hk, hrest⟩ := List.nodup_cons.mp h
    simp only [relCount]
    by_cases hc : k = id ∧ f q
    · rw [if_pos hc, relCount_eq_zero f id rest (hc.1 ▸ hk)]
    · rw [if_neg hc]
      simpa using ih hrest

/-! ### Behaviour of cursor_next on a registered id -/

theorem cursor_next_anatomy {α : Type} (m : List (String × _CursorState α))
    (id : String) (r : Option Nat) (ic : Bool) (now : ℤ) (st : _CursorState α)
    (hg : pyGet m id = some st) :
    ((cursor_next m id r ic now).2.1 = pyPop m id
      ∧ (cursor_next m id r ic now).2.2 = [(id, (st.cur.isSome, st.dbc))]
      ∧ ((∃ e, (cursor_next m id r ic now).1 = Except.error e)
          ∨ (∃ resp, (cursor_next m id r ic now).1 = Except.ok resp
              ∧ resp.exhausted = true)))
  ∨ (∃ st2, (cursor_next m id r ic now).2.1 = pySet m id st2
      ∧ (cursor_next m id r ic now).2.2 = []
      ∧ st2.cur.isSome = true ∧ st2.dbc = st.dbc
      ∧ (∃ resp, (cursor_next m id r ic now).1 = Except.ok resp
          ∧ resp.exhausted = false)) := by
  cases hcur : st.cur with
  | none =>
    refine Or.inl ⟨?_, ?_, Or.inl
      ⟨HttpError.conflict "Cursor not ready: execute() did not complete", ?_⟩⟩ <;>
      simp [cursor_next, hg, hcur, _close_cursor_state]
  | some cur =>
    cases hd : cur.description with
    | none =>
      refine Or.inl ⟨?_, ?_, Or.inl
        ⟨HttpError.conflict "Cursor not ready: execute() did not complete", ?_⟩⟩ <;>
        simp [cursor_next, hg, hcur, hd, _close_cursor_state]
    | some dsc =>
      cases hf : cur.fetchmany (_next_batch_size r) with
      | error e =>
        refine Or.inl ⟨?_, ?_, Or.inl ⟨HttpError.badRequest e, ?_⟩⟩ <;>
          simp [cursor_next, hg, hcur, hd, hf, _close_cursor_state]
      | ok dc =>
        obtain ⟨data, cur2⟩ := dc
        by_cases he : data.isEmpty
        · refine Or.inl ⟨?_, ?_, Or.inr
            ⟨{ cursor_id := id, rows := [],
               columns := if ic then some st.cols else none,
               exhausted := true, expires_at := now }, ?_, rfl⟩⟩ <;>
            simp [cursor_next, hg, hcur, hd, hf, _close_cursor_state, he]
        · refine Or.inr ⟨({ st with cur := some cur2 }).touch now
            CURSOR_TTL_SECONDS, ?_, ?_, ?_, ?_,
            ⟨{ cursor_id := id, rows := data,
               columns := if ic then some st.cols else none,
               exhausted := false,
               expires_at := (({ st with cur := some cur2 }).touch now
                   CURSOR_TTL_SECONDS).deadline }, ?_, rfl⟩⟩ <;>
            simp [cursor_next, hg, hcur, hd, hf, he, _CursorState.touch]

theorem applyOp_facts {α : Type} (m : List (String × _CursorState α))
    (op : StoreOp) (id : String) (hnd : keysNodup m) :
    keysNodup (applyOp m op).1
  ∧ (∀ f, relCount f id (applyOp m op).2 ≤ 1)
  ∧ (∀ f, 1 ≤ relCount f id (applyOp m op).2 → pyGet (applyOp m op).1 id = none)
  ∧ (pyGet m id = none →
       pyGet (applyOp m op).1 id = none
       ∧ ∀ f, relCount f id (applyOp m op).2 = 0) := by
  cases op with
  | next id2 r ic now =>
    simp only [applyOp]
    cases hg : pyGet m id2 with
    | none =>
      have hres : (cursor_next m id2 r ic now).2 = (m, []) := by
        simp [cursor_next, hg]
      rw [hres]
      exact ⟨hnd, fun f => by simp [relCount],
        fun f hf => by simp [relCount] at hf,
        fun h => ⟨h, fun f => by simp [relCount]⟩⟩
    | some st =>
      rcases cursor_next_anatomy m id2 r ic now st hg with
        ⟨hm1, hrel, _⟩ | ⟨st2, hm1, hrel, _, _, _⟩
      · rw [hm1, hrel]
        refine ⟨keysNodup_pyPop m id2 hnd, fun f => ?_, fun f hf => ?_,
          fun h => ?_⟩
        · simp only [relCount]
          split_ifs <;> simp
        · have hid : id = id2 := by
            simpa using relCount_pos_mem f id _ hf
          subst hid
          exact pyGet_pyPop_self m id hnd
        · have hne : id ≠ id2 := by
            intro hEq
            rw [hEq, hg] at h
            cases h
          refine ⟨?_, fun f => ?_⟩
          · rw [pyGet_pyPop_ne m id2 id (Ne.symm hne)]
            exact h
          · apply relCount_eq_zero
            simpa using hne
      · rw [hm1, hrel]
        refine ⟨keysNodup_pySet m id2 st2 hnd, fun f => by simp [relCount],
          fun f hf => by simp [relCount] at hf, fun h => ?_⟩
        have hne : id ≠ id2 := by
          intro hEq
          rw [hEq, hg] at h
          cases h
        refine ⟨?_, fun f => by simp [relCount]⟩
        rw [pyGet_pySet_ne m id2 id st2 (Ne.symm hne)]
        exact h
  | close id2 =>
    simp only [applyOp]
    cases hg : pyGet m id2 with
    | none =>
      have hres : (cursor_close m id2).2 = (m, []) := by
        simp [cursor_close, hg]
      rw [hres]
      exact ⟨hnd, fun f => by simp [relCount],
        fun f hf => by simp [relCount] at hf,
        fun h => ⟨h, fun f => by simp [relCount]⟩⟩
    | some st =>
      have hres : (cursor_close m id2).2
          = (pyPop m id2, [(id2, (_close_cursor_state st).2)]) := by
        simp [cursor_close, hg]
      rw [hres]
      refine ⟨keysNodup_pyPop m id2 hnd, fun f => ?_, fun f hf => ?_,
        fun h => ?_⟩
      · simp only [relCount]
        split_ifs <;> simp
      · have hid : id = id2 := by
          simpa using relCount_pos_mem f id _ hf
        subst hid
        exact pyGet_pyPop_self m id hnd
      · have hne : id ≠ id2 := by
          intro hEq
          rw [hEq, hg] at h
          cases h
        refine ⟨?_, fun f => ?_⟩
        · rw [pyGet_pyPop_ne m id2 id (Ne.symm hne)]
          exact h
        · apply relCount_eq_zero
          simpa using hne
  | sweep now =>
    simp only [applyOp, _sweep_cursors]
    refine ⟨keysNodup_filter m _ hnd, fun f => ?_, fun f hf => ?_, fun h => ?_⟩
    · apply relCount_le_one_of_nodup
      rw [List.map_map]
      exact keysNodup_filter m _ hnd
    · have hmem := relCount_pos_mem f id _ hf
      rw [List.map_map] at hmem
      exact pyGet_filter_none_of_mem_filter m _ id hnd hmem
    · have hknot : id ∉ m.map Prod.fst := (pyGet_eq_none_iff m id).mp h
      refine ⟨?_, fun f => ?_⟩
      · refine (pyGet_eq_none_iff _ _).mpr ?_
        intro hk
        exact hknot (keys_filter_subset m _ id hk)
      · apply relCount_eq_zero
        rw [List.map_map]
        intro hk
        exact hknot (keys_filter_subset m _ id hk)

theorem runOps_facts {α : Type} (ops : List StoreOp) :
    ∀ (m : List (String × _CursorState α)) (id : String), keysNodup m →
      (∀ f, relCount f id (runOps m ops).2 ≤ 1)
      ∧ (pyGet m id = none → ∀ f, relCount f id (runOps m ops).2 = 0) := by
  induction ops with
  | nil =>
    intro m id hnd
    exact ⟨fun f => by simp [runOps, relCount],
      fun _ f => by simp [runOps, relCount]⟩
  | cons op ops ih =>
    intro m id hnd
    obtain ⟨hnd1, hle1, hrel1, habs1⟩ := applyOp_facts m op id hnd
    obtain ⟨ihle, ihzero⟩ := ih (applyOp m op).1 id hnd1
    have hstep : (runOps m (op :: ops)).2
        = (applyOp m op).2 ++ (runOps (applyOp m op).1 ops).2 := by
      simp [runOps]
    constructor
    · intro f
      rw [hstep, relCount_append]
      by_cases h1 : 1 ≤ relCount f id (applyOp m op).2
      · have hz := ihzero (hrel1 f h1) f
        have hb := hle1 f
        omega
      · have h0 : relCount f id (applyOp m op).2 = 0 := by omega
        have hb := ihle f
        omega
    · intro habs f
      obtain ⟨hm1, hz1⟩ := habs1 habs
      rw [hstep, relCount_append, hz1 f, ihzero hm1 f]

/-- C2: a sweep pass removes every handle whose deadline has passed, a
subsequent next on that id fails with ResourceNotFound, and across any
combination of sweep, close and next operations the handle's backend
cursor and connection are each released at most once. -/
theorem cursor_sweep_c2 {α : Type} (m : List (String × _CursorState α))
    (id : String) (st : _CursorState α) (now t : ℤ) (r : Option Nat)
    (ic : Bool) (ops : List StoreOp) (hnd : keysNodup m) :
    (pyGet m id = some st → st.deadline ≤ now →
      pyGet (_sweep_cursors m now).1 id = none
      ∧ (cursor_next (_sweep_cursors m now).1 id r ic t).1
          = Except.error (HttpError.notFound "Cursor not found or expired"))
  ∧ relCount (fun p => p.1) id (runOps m ops).2 ≤ 1
  ∧ relCount (fun p => p.2) id (runOps m ops).2 ≤ 1 := by
  obtain ⟨hle, _⟩ := runOps_facts ops m id hnd
  refine ⟨fun hg hdl => ?_, hle _, hle _⟩
  have hmem : (id, st) ∈ m.filter (fun p => decide (p.2.deadline ≤ now)) :=
    List.mem_filter.mpr ⟨pyGet_mem m id st hg, by simpa using hdl⟩
  have hkey : id ∈ (m.filter
      (fun p => decide (p.2.deadline ≤ now))).map Prod.fst :=
    List.mem_map.mpr ⟨(id, st), hmem, rfl⟩
  have hnone : pyGet (_sweep_cursors m now).1 id = none :=
    pyGet_filter_none_of_mem_filter m _ id hnd hkey
  refine ⟨hnone, ?_⟩
  simp [cursor_next, hnone]

/-- C3: on a registered cursor id, any error surfaced by next leaves the
id absent from the store and releases exactly the backend resources the
handle held; an exhausted next releases and removes likewise; and a
non-exhausted next keeps the handle registered, with its backend cursor
and connection still held and nothing released. -/
theorem cursor_next_error_cleanup_c3 {α : Type}
    (m : List (String × _CursorState α)) (id : String) (st : _CursorState α)
    (r : Option Nat) (ic : Bool) (now : ℤ)
    (hnd : keysNodup m) (hg : pyGet m id = some st) :
    (∀ e, (cursor_next m id r ic now).1 = Except.error e →
        pyGet (cursor_next m id r ic now).2.1 id = none
      ∧ (cursor_next m id r ic now).2.2 = [(id, (st.cur.isSome, st.dbc))])
  ∧ (∀ resp, (cursor_next m id r ic now).1 = Except.ok resp →
      (resp.exhausted = true →
          pyGet (cursor_next m id r ic now).2.1 id = none
        ∧ (cursor_next m id r ic now).2.2 = [(id, (st.cur.isSome, st.dbc))])
      ∧ (resp.exhausted = false →
          (∃ st2, pyGet (cursor_next m id r ic now).2.1 id = some st2
            ∧ st2.cur.isSome = true ∧ st2.dbc = st.dbc)
        ∧ (cursor_next m id r ic now).2.2 = [])) := by
  rcases cursor_next_anatomy m id r ic now st hg with
    ⟨hm1, hrel, hres⟩ | ⟨st2, hm1, hrel, hsome, hdbc, resp0, hres, hex⟩
  · have hnone : pyGet (cursor_next m id r ic now).2.1 id = none := by
      rw [hm1]
      exact pyGet_pyPop_self m id hnd
    refine ⟨fun e he => ⟨hnone, hrel⟩,
      fun resp hr => ⟨fun _ => ⟨hnone, hrel⟩, fun hexf => ?_⟩⟩
    rcases hres with ⟨e, he⟩ | ⟨resp2, hr2, hex2⟩
    · rw [hr] at he
      cases he
    · rw [hr] at hr2
      cases hr2
      rw [hexf] at hex2
      cases hex2
  · refine ⟨fun e he => ?_, fun resp hr => ?_⟩
    · rw [hres] at he
      cases he
    · rw [hres] at hr
      cases hr
      refine ⟨fun hext => ?_, fun _ => ?_⟩
      · rw [hex] at hext
        cases hext
      · refine ⟨⟨st2, ?_, hsome, hdbc⟩, hrel⟩
        rw [hm1]
        exact pyGet_pySet_self m id st2

/-- C9: close on a live cursor returns closed=true, removes the entry, and
a second close on the same id returns closed=false; close on an absent id
returns closed=false leaving the store untouched, and in all cases close
returns a response rather than raising. -/
theorem cursor_close_idempotent_c9 {α : Type}
    (m : List (String × _CursorState α)) (id : String) (hnd : keysNodup m) :
    (∀ st, pyGet m id = some st →
        (cursor_close m id).1 = { cursor_id := id, closed := true }
      ∧ pyGet (cursor_close m id).2.1 id = none
      ∧ (cursor_close (cursor_close m id).2.1 id).1
          = { cursor_id := id, closed := false })
  ∧ (pyGet m id = none →
        (cursor_close m id).1 = { cursor_id := id, closed := false }
      ∧ (cursor_close m id).2.1 = m) := by
  constructor
  · intro st hg
    have h1 : (cursor_close m id).1 = { cursor_id := id, closed := true } := by
      simp [cursor_close, hg]
    have hm : (cursor_close m id).2.1 = pyPop m id := by
      simp [cursor_close, hg]
    have hnone : pyGet (cursor_close m id).2.1 id = none := by
      rw [hm]
      exact pyGet_pyPop_self m id hnd
    have hrun : ∀ mm : List (String × _CursorState α), pyGet mm id = none →
        (cursor_close mm id).1 = { cursor_id := id, closed := false } := by
      intro mm hmm
      simp [cursor_close, hmm]
    exact ⟨h1, hnone, hrun _ hnone⟩
  · intro hg
    exact ⟨by simp [cursor_close, hg], by simp [cursor_close, hg]⟩

/-! ### Concrete cursor-store runs -/

/-- A live three-row backend cursor, as produced by a successful
cursor_create over a 3-row result. -/
def demoCursor : Cursor Nat :=
  { description := some ["v"],
    live := some [FetchItem.row 1, FetchItem.row 2, FetchItem.row 3] }

/-- The registered handle owning demoCursor (TTL 900 from creation at
tick 0, default timeout 30 and buffer 200). -/
def demoState : _CursorState Nat :=
  { dbc := true, cur := some demoCursor, cols := ["v"], deadline := 900,
    timeout := 30, buffer := 200, created := 0, last_access := 0 }

/-- A registered handle whose backend raises on the first fetch. -/
def demoFailState : _CursorState Nat :=
  { demoState with
    cur := some { description := some ["v"],
                  live := some [FetchItem.fail "boom"] } }

def c1_map0 : List (String × _CursorState Nat) := [("c", demoState)]

def c1_step1 := cursor_next c1_map0 "c" (some 2) false 0

def c1_step2 := cursor_next c1_step1.2.1 "c" (some 2) false 0

def c1_step3 := cursor_next c1_step2.2.1 "c" (some 2) false 0

def c1_step4 := cursor_next c1_step3.2.1 "c" (some 2) false 0

/-- C1 counterexample: over a 3-row result with batch size 2, the second
next call returns its 1-row batch with the exhausted flag still false
(the claim expects true), and the third call on the same id fails with a
400 fetch error rather than the 404 ResourceNotFound the claim expects. -/
theorem cursor_lifecycle_c1_counterexample :
    c1_step2.1 = Except.ok
      { cursor_id := "c", rows := [3], columns := none, exhausted := false,
        expires_at := 900 }
  ∧ c1_step3.1 = Except.error
      (HttpError.badRequest "fetchone() called before execute()") := by
  constructor
  · decide
  · decide

/-- C1 (amended): next(2) then next(2) on a 3-row cursor yield batches of
length 2 and 1, both with exhausted=false; the third next on the same id
fails with a 400 fetch error (the dbapi cursor was already drained) and
removes the handle; the fourth call fails with ResourceNotFound (404). -/
theorem cursor_lifecycle_c1_amended :
    c1_step1.1 = Except.ok
      { cursor_id := "c", rows := [1, 2], columns := none, exhausted := false,
        expires_at := 900 }
  ∧ c1_step2.1 = Except.ok
      { cursor_id := "c", rows := [3], columns := none, exhausted := false,
        expires_at := 900 }
  ∧ c1_step3.1 = Except.error
      (HttpError.badRequest "fetchone() called before execute()")
  ∧ pyGet c1_step3.2.1 "c" = none
  ∧ c1_step4.1 = Except.error
      (HttpError.notFound "Cursor not found or expired") := by
  refine ⟨?_, ?_, ?_, ?_, ?_⟩ <;> decide

theorem cursor_sweep_c2_witness :
    pyGet (_sweep_cursors [("c", demoState)] 1000).1 "c" = none
  ∧ (cursor_next (_sweep_cursors [("c", demoState)] 1000).1 "c"
      (some 2) false 1000).1
      = Except.error (HttpError.notFound "Cursor not found or expired")
  ∧ relCount (fun p => p.1) "c"
      (runOps [("c", demoState)] [StoreOp.sweep 1000, StoreOp.close "c"]).2
      ≤ 1 := by
  have h := cursor_sweep_c2 [("c", demoState)] "c" demoState 1000 1000
    (some 2) false [StoreOp.sweep 1000, StoreOp.close "c"]
    (by simp [keysNodup])
  obtain ⟨h1, h2⟩ := h.1 rfl (by decide)
  exact ⟨h1, h2, h.2.1⟩

theorem cursor_next_error_cleanup_c3_witness :
    pyGet (cursor_next [("f", demoFailState)] "f" (some 2) false 0).2.1 "f"
      = none
  ∧ (cursor_next [("f", demoFailState)] "f" (some 2) false 0).2.2
      = [("f", (demoFailState.cur.isSome, demoFailState.dbc))] :=
  (cursor_next_error_cleanup_c3 [("f", demoFailState)] "f" demoFailState
    (some 2) false 0 (by simp [keysNodup]) rfl).1
    (HttpError.badRequest "boom") (by decide)

theorem cursor_close_idempotent_c9_witness :
    (cursor_close [("c", demoState)] "c").1
      = { cursor_id := "c", closed := true }
  ∧ (cursor_close (cursor_close [("c", demoState)] "c").2.1 "c").1
      = { cursor_id := "c", closed := false } := by
  have h := cursor_close_idempotent_c9 [("c", demoState)] "c"
    (by simp [keysNodup])
  obtain ⟨h1, _, h3⟩ := h.1 demoState rfl
  exact ⟨h1, h3⟩

/-! ### One-shot query endpoint (restq.py lines 411-448) -/

/-- Source: restq.ExecResponse. -/
structure ExecResponse (α : Type) where
  columns : List String
  rows : List α
  rowcount : Option Int
  elapsed_ms : Nat
deriving DecidableEq

/-- Python dict.update on the association-list model. -/
def pyDictUpdate {β : Type} (m n : List (String × β)) : List (String × β) :=
  n.foldl (fun acc p => pySet acc p.1 p.2) m

/-- Source: restq.run_query(req).  The backend collaborator maps the
executed SQL text and merged bound parameters to either a driver error or
the result (column names, drained rows, driver rowcount); run_query
enforces the read-only gate, rewrites for pagination, rejects reserved
parameter names, then either returns the rowcount-only response (mutating
head) or the drained rows with rowcount None. -/
def run_query {α : Type}
    (backend : List Char → List (String × Int) →
      Except String (List String × List α × Int))
    (sql : List Char) (params : List (String × Int))
    (limit offset : Option Nat) (elapsed : Nat) :
    Except HttpError (ExecResponse α) :=
  if _enforce_read_only sql then
    if (pyGet params "_lim").isSome ∨ (pyGet params "_off").isSome then
      Except.error (HttpError.badRequest
        "Parameter names _lim and _off are reserved")
    else
      match backend (_wrap_with_limit_offset sql limit offset).1
          (pyDictUpdate params
            ((_wrap_with_limit_offset sql limit offset).2.map
              (fun p => (p.1, (p.2 : Int))))) with
      | Except.error e => Except.error (HttpError.badRequest e)
      | Except.ok (cols, rowsData, rc) =>
        if _classify_sql sql ∈ mutatingHeads then
          Except.ok { columns := [], rows := [], rowcount := some rc,
                      elapsed_ms := elapsed }
        else
          Except.ok { columns := cols, rows := rowsData, rowcount := none,
                      elapsed_ms := elapsed }
  else
    Except.error (HttpError.forbidden
      "Statement is not permitted (read-only API)")

theorem mutating_not_read_only (x : List Char) (h : x ∈ mutatingHeads) :
    x ∉ READ_ONLY_PREFIXES := by
  simp only [mutatingHeads, List.mem_cons, List.not_mem_nil, or_false] at h
  rcases h with h | h | h | h <;> subst h <;> decide

theorem read_only_not_mutating (x : List Char) (h : x ∈ READ_ONLY_PREFIXES) :
    x ∉ mutatingHeads := by
  simp only [READ_ONLY_PREFIXES, List.mem_cons, List.not_mem_nil,
    or_false] at h
  rcases h with h | h | h | h | h <;> subst h <;> decide

/-- C10: a statement whose leading keyword is INSERT, UPDATE, DELETE or
MERGE is rejected by run_query with a 403 policy error independently of
the backend (so before any backend execution), and consequently every
successful run_query response carries rowcount = None — the rowcount-only
branch is unreachable. -/
theorem run_query_read_only_c10 {α : Type} :
    (∀ (b1 b2 : List Char → List (String × Int) →
          Except String (List String × List α × Int))
        (sql : List Char) (params : List (String × Int))
        (L O : Option Nat) (t : Nat),
        _classify_sql sql ∈ mutatingHeads →
          run_query b1 sql params L O t
            = Except.error (HttpError.forbidden
                "Statement is not permitted (read-only API)")
          ∧ run_query b1 sql params L O t = run_query b2 sql params L O t)
  ∧ (∀ (b : List Char → List (String × Int) →
          Except String (List String × List α × Int))
        (sql : List Char) (params : List (String × Int))
        (L O : Option Nat) (t : Nat) (resp : ExecResponse α),
        run_query b sql params L O t = Except.ok resp →
          resp.rowcount = none) := by
  constructor
  · intro b1 b2 sql params L O t hmut
    have hnro : _classify_sql sql ∉ READ_ONLY_PREFIXES :=
      mutating_not_read_only _ hmut
    have hen : _enforce_read_only sql = false := by
      simp [_enforce_read_only, hnro]
    constructor <;> simp [run_query, hen]
  · intro b sql params L O t resp hok
    by_cases hen : _enforce_read_only sql = true
    · have hmem : _classify_sql sql ∈ READ_ONLY_PREFIXES := by
        simpa [_enforce_read_only] using hen
      have hnm : _classify_sql sql ∉ mutatingHeads :=
        read_only_not_mutating _ hmem
      by_cases hres : (pyGet params "_lim").isSome ∨ (pyGet params "_off").isSome
      · simp only [run_query, hen, if_true, hres] at hok
        cases hok
      · cases hb : b (_wrap_with_limit_offset sql L O).1
            (pyDictUpdate params
              ((_wrap_with_limit_offset sql L O).2.map
                (fun p => (p.1, (p.2 : Int))))) with
        | error e =>
          simp only [run_query, hen, if_true, hres, hb] at hok
          cases hok
        | ok trip =>
          obtain ⟨cols, rowsData, rc⟩ := trip
          simp only [run_query, hen, if_true, hres, hb] at hok
          rw [if_neg hnm] at hok
          cases hok
          rfl
    · have hf : _enforce_read_only sql = false := by
        cases hh : _enforce_read_only sql
        · rfl
        · exact absurd hh hen
      simp only [run_query, hf] at hok
      cases hok

theorem run_query_read_only_c10_witness :
    run_query (fun _ _ => Except.ok ([], ([] : List Nat), 0)) "INSERT 1".data
        [] none none 0
      = Except.error (HttpError.forbidden
          "Statement is not permitted (read-only API)") :=
  (run_query_read_only_c10.1 (fun _ _ => Except.ok ([], [], 0))
    (fun _ _ => Except.ok ([], [], 0)) "INSERT 1".data [] none none 0
    (by decide)).1
